import Mathlib

/-!
Formal model of the certificate/signature processing core of the
nextjs-x509 repository, shallowly embedded from the TypeScript sources
`src/lib/crypto/signature-validator.ts`, `src/lib/crypto/certificate-parser.ts`
and the data model in `types/index.ts`.

JavaScript `Date` values are modelled as milliseconds-since-epoch integers
(`Int`); every place the source calls `new Date()` becomes an explicit
instant parameter.  Calls into the external `jsrsasign` library are
modelled by oracle values describing their observable outcome (the parsed
CMS structure, the boolean result of a cryptographic verification, a
thrown exception), since the library is a third-party dependency outside
this repository; all control flow of the repository's own code is
translated faithfully.
-/

/-- DistinguishedName from `types/index.ts`: every RDN attribute is optional. -/
structure DistinguishedName where
  CN : Option String := none
  O : Option String := none
  OU : Option String := none
  L : Option String := none
  ST : Option String := none
  C : Option String := none
  E : Option String := none
deriving DecidableEq

/-- Fingerprints from `types/index.ts`. -/
structure Fingerprints where
  sha1 : String
  sha256 : String
deriving DecidableEq

/-- The `algorithm` tag of `PublicKeyInfo` in `types/index.ts`. -/
inductive PKAlgorithm
  | RSA
  | ECDSA
deriving DecidableEq

/-- PublicKeyInfo from `types/index.ts`. -/
structure PublicKeyInfo where
  algorithm : PKAlgorithm
  keySize : Nat
  modulus : Option String := none
  exponent : Option String := none
  curve : Option String := none
deriving DecidableEq

/-- CertificateExtension from `types/index.ts`; the `value : any` field is
kept opaque as a string. -/
structure CertificateExtension where
  oid : String
  critical : Bool
  value : String
deriving DecidableEq

/-- ParsedCertificate from `types/index.ts`.  `notBefore`/`notAfter` are
epoch milliseconds. -/
structure ParsedCertificate where
  version : Nat
  serialNumber : String
  issuer : DistinguishedName
  subject : DistinguishedName
  notBefore : Int
  notAfter : Int
  publicKey : PublicKeyInfo
  signatureAlgorithm : String
  extensions : List CertificateExtension := []
  fingerprints : Fingerprints
  raw : String
deriving DecidableEq

/-- ValidationError from `types/index.ts` (severity `error`/`critical`). -/
inductive ErrorSeverity
  | error
  | critical
deriving DecidableEq

structure ValidationError where
  code : String
  message : String
  severity : ErrorSeverity
deriving DecidableEq

/-- ValidationWarning from `types/index.ts` (severity `warning`/`info`). -/
inductive WarningSeverity
  | warning
  | info
deriving DecidableEq

structure ValidationWarning where
  code : String
  message : String
  severity : WarningSeverity
deriving DecidableEq

/-- ValidationStatus from `types/index.ts`. -/
inductive ValidationStatus
  | valid
  | validWithWarnings
  | invalid
  | unknown
deriving DecidableEq

/-- ValidationDetails from `types/index.ts`. -/
structure ValidationDetails where
  signatureValid : Bool
  certificateValid : Bool
  chainValid : Bool
  timestampValid : Option Bool := none
  certificateChain : List ParsedCertificate
  signedAt : Option Int := none
  validatedAt : Int
deriving DecidableEq

/-- ValidationResult from `types/index.ts`. -/
structure ValidationResult where
  valid : Bool
  status : ValidationStatus
  errors : List ValidationError
  warnings : List ValidationWarning
  details : ValidationDetails
  timestamp : Int
deriving DecidableEq

/-- ValidationOptions from `types/index.ts` (`trustedCAs` is optional). -/
structure ValidationOptions where
  trustedCAs : Option (List ParsedCertificate) := none
  checkRevocation : Bool
  validateTimestamp : Bool
  allowExpiredCertificates : Bool
deriving DecidableEq

/-- Observable outcome of the private helpers of
`signature-validator.ts` that wrap `jsrsasign` calls in their own
try/catch and therefore never throw: `extractSignerCertificate` (an
optional parsed certificate), `verifySignatureCryptography` (a boolean,
for the given document), and `extractTimestamp` (an optional
signing-time instant). -/
structure CMSSignedData where
  signerCert : Option ParsedCertificate
  cryptoVerify : Bool
  signingTime : Option Int
deriving DecidableEq

/-- Outcome of `new CMSParser().getCMSSignedData(signature)` — the only
statement inside the top-level `try` of `validateSignature` that can
throw: it either throws, returns a falsy value, or returns signed data. -/
inductive CMSParseOutcome
  | throws (msg : String)
  | nullData
  | ok (sd : CMSSignedData)
deriving DecidableEq

/-- Outcome of the external `x509.verifySignature(issuerPubKey)` call used
by `validateCertificateChain` (it may throw, caught by that function). -/
inductive VerifyOutcome
  | throws (msg : String)
  | ok (b : Bool)
deriving DecidableEq

/-- Return shape of `checkCertificateValidity` / `validateCertificateChain`
in `signature-validator.ts`. -/
structure ValidityCheck where
  valid : Bool
  message : String
deriving DecidableEq

/-- checkCertificateValidity, `signature-validator.ts` lines 217-241.
`now` stands for the `new Date()` taken inside the function; the
human-readable date in the expired message is rendered from the raw
instant. -/
def checkCertificateValidity (certificate : ParsedCertificate) (allowExpired : Bool)
    (now : Int) : ValidityCheck :=
  if now < certificate.notBefore then
    { valid := false, message := "Certificate is not yet valid." }
  else if certificate.notAfter < now then
    { valid := allowExpired,
      message := "Certificate expired on " ++ toString certificate.notAfter ++ "." }
  else
    { valid := true, message := "Certificate is valid." }

/-- validateCertificateChain, `signature-validator.ts` lines 246-318.
`verifyWithIssuer` is the oracle for the external issuer-signature check
(only reached in the non-self-signed branch). -/
def validateCertificateChain
    (verifyWithIssuer : ParsedCertificate → ParsedCertificate → VerifyOutcome)
    (certificate : ParsedCertificate) (trustedCAs : List ParsedCertificate) :
    ValidityCheck :=
  if trustedCAs.length = 0 then
    { valid := true, message := "Chain validation skipped (no trusted CAs provided)." }
  else if certificate.issuer.CN = certificate.subject.CN then
    if trustedCAs.any
        (fun ca => decide (ca.fingerprints.sha256 = certificate.fingerprints.sha256)) then
      { valid := true, message := "Self-signed certificate is trusted." }
    else
      { valid := false, message := "Self-signed certificate is not in trusted CAs." }
  else
    match trustedCAs.find? (fun ca => decide (ca.subject.CN = certificate.issuer.CN)) with
    | none => { valid := false, message := "Certificate issuer not found in trusted CAs." }
    | some issuer =>
      match verifyWithIssuer certificate issuer with
      | VerifyOutcome.throws msg =>
          { valid := false, message := "Chain validation error: " ++ msg }
      | VerifyOutcome.ok false =>
          { valid := false, message := "Certificate signature verification failed." }
      | VerifyOutcome.ok true =>
          { valid := true, message := "Certificate chain is valid." }

/-- validateTimestampValidity, `signature-validator.ts` lines 348-363.
`now` stands for the `new Date()` taken inside the function. -/
def validateTimestampValidity (timestamp : Int) (now : Int) : Bool :=
  if now < timestamp then false
  else if 365 * 24 * 60 * 60 * 1000 < now - timestamp then false
  else true

/-- createValidationResult, `signature-validator.ts` lines 368-389. -/
def createValidationResult (valid : Bool) (status : ValidationStatus)
    (errors : List ValidationError) (warnings : List ValidationWarning)
    (timestamp : Int) : ValidationResult :=
  { valid := valid
    status := status
    errors := errors
    warnings := warnings
    details :=
      { signatureValid := false
        certificateValid := false
        chainValid := false
        certificateChain := []
        validatedAt := timestamp }
    timestamp := timestamp }

/-- validateSignature, `signature-validator.ts` lines 15-149.
`parseOutcome` is the oracle for the CMS parse of the signature blob
together with the outcomes of the document-dependent helper calls;
`timestamp`, `nowCert` and `nowTs` are the three `new Date()` instants
taken at line 26, inside `checkCertificateValidity`, and inside
`validateTimestampValidity` respectively. -/
def validateSignature (parseOutcome : CMSParseOutcome)
    (verifyWithIssuer : ParsedCertificate → ParsedCertificate → VerifyOutcome)
    (options : ValidationOptions) (timestamp nowCert nowTs : Int) : ValidationResult :=
  match parseOutcome with
  | CMSParseOutcome.throws msg =>
      createValidationResult false ValidationStatus.invalid
        [{ code := "VALIDATION_ERROR"
           message := "Validation failed: " ++ msg
           severity := ErrorSeverity.critical }] [] timestamp
  | CMSParseOutcome.nullData =>
      createValidationResult false ValidationStatus.invalid
        [{ code := "INVALID_SIGNATURE_FORMAT"
           message := "Invalid signature format. Expected PKCS#7/CMS."
           severity := ErrorSeverity.critical }] [] timestamp
  | CMSParseOutcome.ok sd =>
    match sd.signerCert with
    | none =>
        createValidationResult false ValidationStatus.invalid
          [{ code := "NO_SIGNER_CERTIFICATE"
             message := "No signer certificate found in signature."
             severity := ErrorSeverity.critical }] [] timestamp
    | some signerCert =>
      let signatureValid := sd.cryptoVerify
      let sigErrors : List ValidationError :=
        if signatureValid then []
        else [{ code := "SIGNATURE_VERIFICATION_FAILED"
                message := "Signature verification failed. The document may have been modified."
                severity := ErrorSeverity.critical }]
      let certValid := checkCertificateValidity signerCert options.allowExpiredCertificates nowCert
      let certErrors : List ValidationError :=
        if certValid.valid then []
        else if options.allowExpiredCertificates then []
        else [{ code := "CERTIFICATE_EXPIRED", message := certValid.message
                severity := ErrorSeverity.error }]
      let certWarnings : List ValidationWarning :=
        if certValid.valid then []
        else if options.allowExpiredCertificates then
          [{ code := "CERTIFICATE_EXPIRED", message := certValid.message
             severity := WarningSeverity.warning }]
        else []
      let chainCheck := validateCertificateChain verifyWithIssuer signerCert
        (options.trustedCAs.getD [])
      let chainErrors : List ValidationError :=
        if chainCheck.valid then []
        else [{ code := "CHAIN_VALIDATION_FAILED", message := chainCheck.message
                severity := ErrorSeverity.error }]
      let signedAt := sd.signingTime
      let tsWarnings : List ValidationWarning :=
        match signedAt with
        | some t =>
          if options.validateTimestamp && !(validateTimestampValidity t nowTs) then
            [{ code := "INVALID_TIMESTAMP", message := "Timestamp is outside acceptable range."
               severity := WarningSeverity.warning }]
          else []
        | none => []
      let errors := sigErrors ++ certErrors ++ chainErrors
      let warnings := certWarnings ++ tsWarnings
      let valid := errors.length == 0
      let status :=
        if valid then
          (if warnings.length > 0 then ValidationStatus.validWithWarnings
           else ValidationStatus.valid)
        else ValidationStatus.invalid
      { valid := valid
        status := status
        errors := errors
        warnings := warnings
        details :=
          { signatureValid := signatureValid
            certificateValid := certValid.valid
            chainValid := chainCheck.valid
            timestampValid := match signedAt with | some _ => some true | none => none
            certificateChain := [signerCert]
            signedAt := signedAt
            validatedAt := timestamp }
        timestamp := timestamp }

/-- Return shape of `checkCertificateExpiration` in `certificate-parser.ts`. -/
structure ExpirationStatus where
  isExpired : Bool
  daysUntilExpiration : Int
deriving DecidableEq

/-- The constant `1000 * 60 * 60 * 24` of `certificate-parser.ts` line 118. -/
def msPerDay : Int := 1000 * 60 * 60 * 24

/-- checkCertificateExpiration, `certificate-parser.ts` lines 112-125.
`Math.floor` of the millisecond quotient is flooring integer division. -/
def checkCertificateExpiration (cert : ParsedCertificate) (now : Int) : ExpirationStatus :=
  { isExpired := decide (cert.notAfter < now)
    daysUntilExpiration := (cert.notAfter - now).fdiv msPerDay }

/-- The fields of the `jsrsasign` public-key object that
`parsePublicKey` in `certificate-parser.ts` actually reads: for an
RSAKey the modulus bit length and the hex renderings of modulus and
exponent, for an ECDSA key the named curve. -/
inductive X509PublicKey
  | rsa (nBitLength : Nat) (nHex : String) (eHex : String)
  | ecdsa (curveName : String)
  | unsupported
deriving DecidableEq

/-- parsePublicKey, `certificate-parser.ts` lines 62-81.  The thrown
error of the unsupported branch is modelled with `Except`. -/
def parsePublicKey (pubKey : X509PublicKey) : Except String PublicKeyInfo :=
  match pubKey with
  | X509PublicKey.rsa nBitLength nHex eHex =>
      Except.ok { algorithm := PKAlgorithm.RSA, keySize := nBitLength
                  modulus := some nHex, exponent := some eHex }
  | X509PublicKey.ecdsa curveName =>
      Except.ok { algorithm := PKAlgorithm.ECDSA, keySize := 256
                  curve := some curveName }
  | X509PublicKey.unsupported => Except.error "Unsupported public key algorithm"

/-- Concrete self-signed test certificate (CN of issuer and subject agree),
valid from instant 1000 to instant 2000. -/
def certA : ParsedCertificate :=
  { version := 3
    serialNumber := "01"
    issuer := { CN := some "Example" }
    subject := { CN := some "Example" }
    notBefore := 1000
    notAfter := 2000
    publicKey := { algorithm := PKAlgorithm.RSA, keySize := 2048 }
    signatureAlgorithm := "SHA256withRSA"
    fingerprints := { sha1 := "A1", sha256 := "B1" }
    raw := "PEMA" }

/-- Concrete certificate whose notAfter lies exactly two days after epoch. -/
def certDay : ParsedCertificate :=
  { version := 3
    serialNumber := "02"
    issuer := { CN := some "Day" }
    subject := { CN := some "Day" }
    notBefore := 0
    notAfter := 172800000
    publicKey := { algorithm := PKAlgorithm.RSA, keySize := 2048 }
    signatureAlgorithm := "SHA256withRSA"
    fingerprints := { sha1 := "A2", sha256 := "B2" }
    raw := "PEMB" }

/-- Signed data whose signer certificate is `certA`, whose cryptographic
verification succeeds, with no signing-time attribute. -/
def sdA : CMSSignedData :=
  { signerCert := some certA, cryptoVerify := true, signingTime := none }

/-- Signed data like `sdA` but carrying a signing-time attribute far in
the future. -/
def sdTs : CMSSignedData :=
  { signerCert := some certA, cryptoVerify := true, signingTime := some 9999999999999 }

/-- Issuer-signature oracle that always reports verification failure
(never reached in the scenarios below, which all skip the non-self-signed
branch). -/
def noVerify : ParsedCertificate → ParsedCertificate → VerifyOutcome :=
  fun _ _ => VerifyOutcome.ok false

/-- The default options value of `validateSignature`. -/
def optsDefault : ValidationOptions :=
  { checkRevocation := false, validateTimestamp := false, allowExpiredCertificates := false }

/-- Options with `allowExpiredCertificates` switched on. -/
def optsAllowExpired : ValidationOptions :=
  { checkRevocation := false, validateTimestamp := false, allowExpiredCertificates := true }

/-- Options with `validateTimestamp` switched on. -/
def optsValidateTs : ValidationOptions :=
  { checkRevocation := false, validateTimestamp := true, allowExpiredCertificates := false }

/-- C1: every ValidationResult returned by validateSignature has
`valid` true exactly when `errors` is empty, and `status` is the stated
pure function of `(valid, warnings.length)`: valid with no warnings gives
`valid`, valid with warnings gives `valid-with-warnings`, and not valid
gives `invalid`. -/
theorem validateSignature_valid_iff_errors_empty_and_status
    (p : CMSParseOutcome)
    (v : ParsedCertificate → ParsedCertificate → VerifyOutcome)
    (o : ValidationOptions) (t n₁ n₂ : Int) :
    ((validateSignature p v o t n₁ n₂).valid = true ↔
      (validateSignature p v o t n₁ n₂).errors = []) ∧
    (validateSignature p v o t n₁ n₂).status =
      (if (validateSignature p v o t n₁ n₂).valid then
        (if (validateSignature p v o t n₁ n₂).warnings.length > 0 then
          ValidationStatus.validWithWarnings
         else ValidationStatus.valid)
       else ValidationStatus.invalid) := by
  cases p with
  | throws msg => simp [validateSignature, createValidationResult]
  | nullData => simp [validateSignature, createValidationResult]
  | ok sd =>
    cases hc : sd.signerCert with
    | none => simp [validateSignature, createValidationResult, hc]
    | some c =>
      simp only [validateSignature, hc]
      constructor
      · simp [List.length_eq_zero]
      · simp

/-- C2: when the one throwing statement inside the top-level try of
validateSignature raises, the result carries a single critical
VALIDATION_ERROR entry, `valid` is false and `status` is `invalid`
(the function itself is total: it always returns a structured result). -/
theorem validateSignature_internal_fault_converted
    (msg : String)
    (v : ParsedCertificate → ParsedCertificate → VerifyOutcome)
    (o : ValidationOptions) (t n₁ n₂ : Int) :
    (validateSignature (CMSParseOutcome.throws msg) v o t n₁ n₂).errors =
      [{ code := "VALIDATION_ERROR"
         message := "Validation failed: " ++ msg
         severity := ErrorSeverity.critical }] ∧
    (validateSignature (CMSParseOutcome.throws msg) v o t n₁ n₂).valid = false ∧
    (validateSignature (CMSParseOutcome.throws msg) v o t n₁ n₂).status =
      ValidationStatus.invalid := by
  simp [validateSignature, createValidationResult]

/-- C3: evidence of the divergence around the validity-window check.  At
instant 500, before certA's notBefore of 1000, with
allowExpiredCertificates set, validateSignature records the not-yet-valid
condition as a CERTIFICATE_EXPIRED warning and no error at all, so the
overall result is valid; and at instant 5000, after certA's notAfter of
2000, the same options produce neither an error nor a warning and report
certificateValid = true. -/
theorem validateSignature_notYetValid_downgraded :
    ((validateSignature (CMSParseOutcome.ok sdA) noVerify optsAllowExpired 500 500 500).errors = [] ∧
     (validateSignature (CMSParseOutcome.ok sdA) noVerify optsAllowExpired 500 500 500).warnings =
       [{ code := "CERTIFICATE_EXPIRED", message := "Certificate is not yet valid."
          severity := WarningSeverity.warning }] ∧
     (validateSignature (CMSParseOutcome.ok sdA) noVerify optsAllowExpired 500 500 500).valid = true) ∧
    ((validateSignature (CMSParseOutcome.ok sdA) noVerify optsAllowExpired 5000 5000 5000).errors = [] ∧
     (validateSignature (CMSParseOutcome.ok sdA) noVerify optsAllowExpired 5000 5000 5000).warnings = [] ∧
     (validateSignature (CMSParseOutcome.ok sdA) noVerify optsAllowExpired 5000 5000 5000).details.certificateValid = true) := by
  decide

/-- C5 counterexample: a validation to which the caller supplied no
trusted CAs but which fails structurally (undecodable CMS) reports
details.chainValid = false, not true. -/
theorem chainValid_false_on_structural_failure :
    optsDefault.trustedCAs = none ∧
    (validateSignature CMSParseOutcome.nullData noVerify optsDefault 0 0 0).details.chainValid = false := by
  decide

/-- C5 (amended): whenever validation reaches the chain-validation step
(a signer certificate was extracted) and the caller supplied no trusted
CAs, chain validation is skipped and treated as passing:
details.chainValid is true and no CHAIN_VALIDATION_FAILED error is
emitted. -/
theorem noTrustedCAs_chain_skipped
    (sd : CMSSignedData) (c : ParsedCertificate)
    (v : ParsedCertificate → ParsedCertificate → VerifyOutcome)
    (o : ValidationOptions) (t n₁ n₂ : Int)
    (hc : sd.signerCert = some c) (hca : o.trustedCAs.getD [] = []) :
    (validateSignature (CMSParseOutcome.ok sd) v o t n₁ n₂).details.chainValid = true ∧
    (validateSignature (CMSParseOutcome.ok sd) v o t n₁ n₂).errors.all
      (fun e => e.code != "CHAIN_VALIDATION_FAILED") = true := by
  have h1 : validateCertificateChain v c (o.trustedCAs.getD []) =
      { valid := true, message := "Chain validation skipped (no trusted CAs provided)." } := by
    rw [hca]; rfl
  constructor
  · simp [validateSignature, hc, h1]
  · simp only [validateSignature, hc, h1]
    simp only [List.all_append, Bool.and_eq_true, List.all_eq_true]
    refine ⟨⟨?_, ?_⟩, ?_⟩
    · intro e he
      split at he <;> simp_all
    · intro e he
      split at he
      · simp_all
      · split at he <;> simp_all
    · intro e he
      simp_all

/-- Witness for the amended C5 theorem at a concrete input. -/
theorem noTrustedCAs_chain_skipped_witness :
    sdA.signerCert = some certA ∧
    optsDefault.trustedCAs.getD [] = [] ∧
    ((validateSignature (CMSParseOutcome.ok sdA) noVerify optsDefault 0 1500 0).details.chainValid = true ∧
     (validateSignature (CMSParseOutcome.ok sdA) noVerify optsDefault 0 1500 0).errors.all
       (fun e => e.code != "CHAIN_VALIDATION_FAILED") = true) :=
  ⟨rfl, rfl, noTrustedCAs_chain_skipped sdA certA noVerify optsDefault 0 1500 0 rfl rfl⟩

/-- C6: for a self-signed signer certificate (issuer CN equals subject
CN) and a non-empty list of trusted CAs, the chain check succeeds
exactly when the certificate's SHA-256 fingerprint equals that of some
supplied trusted CA. -/
theorem selfSigned_chain_valid_iff_fingerprint_trusted
    (v : ParsedCertificate → ParsedCertificate → VerifyOutcome)
    (c : ParsedCertificate) (cas : List ParsedCertificate)
    (hne : cas ≠ []) (hss : c.issuer.CN = c.subject.CN) :
    (validateCertificateChain v c cas).valid = true ↔
      ∃ ca ∈ cas, ca.fingerprints.sha256 = c.fingerprints.sha256 := by
  have hlen : ¬ cas.length = 0 := by simpa [List.length_eq_zero] using hne
  have key : (cas.any (fun ca => decide (ca.fingerprints.sha256 = c.fingerprints.sha256)) = true) ↔
      ∃ ca ∈ cas, ca.fingerprints.sha256 = c.fingerprints.sha256 := by
    simp [List.any_eq_true]
  rw [← key]
  cases h : cas.any (fun ca => decide (ca.fingerprints.sha256 = c.fingerprints.sha256)) <;>
    simp [validateCertificateChain, hlen, hss, h]

/-- Witness for the C6 theorem: the self-signed certA supplied as its own
trusted CA. -/
theorem selfSigned_chain_valid_iff_fingerprint_trusted_witness :
    ([certA] ≠ ([] : List ParsedCertificate)) ∧
    certA.issuer.CN = certA.subject.CN ∧
    ((validateCertificateChain noVerify certA [certA]).valid = true ↔
      ∃ ca ∈ [certA], ca.fingerprints.sha256 = certA.fingerprints.sha256) :=
  ⟨by decide, by decide,
    selfSigned_chain_valid_iff_fingerprint_trusted noVerify certA [certA] (by decide) (by decide)⟩

/-- C7 counterexample: advancing now from instant 1 to instant 2 leaves
daysUntilExpiration of certDay unchanged (both are 1), so the value does
not strictly decrease as now advances. -/
theorem daysUntilExpiration_not_strictly_decreasing :
    (1 : Int) < 2 ∧
    (checkCertificateExpiration certDay 1).daysUntilExpiration = 1 ∧
    (checkCertificateExpiration certDay 2).daysUntilExpiration = 1 := by
  decide

/-- C7 (amended): daysUntilExpiration is the floor division of
(notAfter − now) by the milliseconds-per-day constant and may be
negative; isExpired holds exactly when now is strictly after notAfter
(hence flips from false to true exactly once as now advances past
notAfter); and daysUntilExpiration is monotonically non-increasing —
not strictly decreasing — as now advances. -/
theorem checkCertificateExpiration_formula_and_monotone
    (c : ParsedCertificate) (now now₁ now₂ : Int) (h : now₁ ≤ now₂) :
    (checkCertificateExpiration c now).daysUntilExpiration =
      (c.notAfter - now).fdiv msPerDay ∧
    ((checkCertificateExpiration c now).isExpired = true ↔ c.notAfter < now) ∧
    ((checkCertificateExpiration c now₁).isExpired = true →
      (checkCertificateExpiration c now₂).isExpired = true) ∧
    (checkCertificateExpiration c now₂).daysUntilExpiration ≤
      (checkCertificateExpiration c now₁).daysUntilExpiration := by
  refine ⟨rfl, by simp [checkCertificateExpiration], ?_, ?_⟩
  · intro h1
    simp only [checkCertificateExpiration, decide_eq_true_eq] at h1 ⊢
    omega
  · show (c.notAfter - now₂).fdiv msPerDay ≤ (c.notAfter - now₁).fdiv msPerDay
    have hpos : (0 : Int) < msPerDay := by norm_num [msPerDay]
    rw [Int.fdiv_eq_ediv _ (le_of_lt hpos), Int.fdiv_eq_ediv _ (le_of_lt hpos)]
    exact Int.ediv_le_ediv hpos (by omega)

/-- Witness for the amended C7 theorem at concrete instants (also showing
a negative daysUntilExpiration once now is far past notAfter). -/
theorem checkCertificateExpiration_formula_and_monotone_witness :
    ((0 : Int) ≤ 259200000) ∧
    ((checkCertificateExpiration certDay 5).daysUntilExpiration =
        (certDay.notAfter - 5).fdiv msPerDay ∧
      ((checkCertificateExpiration certDay 5).isExpired = true ↔ certDay.notAfter < 5) ∧
      ((checkCertificateExpiration certDay 0).isExpired = true →
        (checkCertificateExpiration certDay 259200000).isExpired = true) ∧
      (checkCertificateExpiration certDay 259200000).daysUntilExpiration ≤
        (checkCertificateExpiration certDay 0).daysUntilExpiration) ∧
    (checkCertificateExpiration certDay 259200000).daysUntilExpiration = -1 :=
  ⟨by decide, checkCertificateExpiration_formula_and_monotone certDay 5 0 259200000 (by decide),
    by decide⟩

/-- C8 counterexample: on the top-level catch return path the details
carry an empty certificate chain, not one containing the signer
certificate. -/
theorem certificateChain_empty_on_fault :
    (validateSignature (CMSParseOutcome.throws "out of memory") noVerify optsDefault 0 0 0).details.certificateChain = [] := by
  decide

/-- C8 (amended): on the main return path — a signer certificate was
extracted and no internal fault occurred — details.certificateChain is
exactly the one-element list holding the signer certificate; the early
return paths built by createValidationResult report an empty chain
instead. -/
theorem certificateChain_singleton_on_main_path
    (sd : CMSSignedData) (c : ParsedCertificate)
    (v : ParsedCertificate → ParsedCertificate → VerifyOutcome)
    (o : ValidationOptions) (t n₁ n₂ : Int)
    (hc : sd.signerCert = some c) :
    (validateSignature (CMSParseOutcome.ok sd) v o t n₁ n₂).details.certificateChain = [c] := by
  simp [validateSignature, hc]

/-- Witness for the amended C8 theorem at a concrete input. -/
theorem certificateChain_singleton_on_main_path_witness :
    sdA.signerCert = some certA ∧
    (validateSignature (CMSParseOutcome.ok sdA) noVerify optsDefault 0 1500 0).details.certificateChain = [certA] :=
  ⟨rfl, certificateChain_singleton_on_main_path sdA certA noVerify optsDefault 0 1500 0 rfl⟩

/-- C9: the source hard-codes keySize 256 for every ECDSA key instead of
deriving it from the named curve — a secp384r1 key yields keySize 256,
not the 384 the curve determines. -/
theorem parsePublicKey_ecdsa_keySize_hardcoded :
    parsePublicKey (X509PublicKey.ecdsa "secp384r1") =
      Except.ok { algorithm := PKAlgorithm.ECDSA, keySize := 256
                  curve := some "secp384r1" } ∧
    (256 : Nat) ≠ 384 :=
  ⟨rfl, by decide⟩

/-- C10: on the main path, details.timestampValid is `some true` exactly
when a signing time was extracted (and undefined otherwise), regardless
of options.validateTimestamp and of the range check; a failing range
check with validateTimestamp set only contributes an INVALID_TIMESTAMP
warning. -/
theorem timestampValid_true_iff_signedAt
    (sd : CMSSignedData) (c : ParsedCertificate) (ts : Int)
    (v : ParsedCertificate → ParsedCertificate → VerifyOutcome)
    (o : ValidationOptions) (t n₁ n₂ : Int)
    (hc : sd.signerCert = some c) :
    ((validateSignature (CMSParseOutcome.ok sd) v o t n₁ n₂).details.timestampValid =
      sd.signingTime.map (fun _ => true)) ∧
    ((validateSignature (CMSParseOutcome.ok sd) v o t n₁ n₂).details.signedAt =
      sd.signingTime) ∧
    (sd.signingTime = some ts → o.validateTimestamp = true →
      validateTimestampValidity ts n₂ = false →
      ({ code := "INVALID_TIMESTAMP", message := "Timestamp is outside acceptable range."
         severity := WarningSeverity.warning } : ValidationWarning) ∈
        (validateSignature (CMSParseOutcome.ok sd) v o t n₁ n₂).warnings) := by
  refine ⟨?_, ?_, ?_⟩
  · cases hts : sd.signingTime <;> simp [validateSignature, hc, hts]
  · simp [validateSignature, hc]
  · intro hts hvt hrange
    simp [validateSignature, hc, hts, hvt, hrange, List.mem_append]

/-- Witness for the C10 theorem: a signing time far in the future fails
the range check, yet only the warning is produced. -/
theorem timestampValid_true_iff_signedAt_witness :
    sdTs.signerCert = some certA ∧
    ({ code := "INVALID_TIMESTAMP", message := "Timestamp is outside acceptable range."
       severity := WarningSeverity.warning } : ValidationWarning) ∈
      (validateSignature (CMSParseOutcome.ok sdTs) noVerify optsValidateTs 0 1500 0).warnings :=
  ⟨rfl, (timestampValid_true_iff_signedAt sdTs certA 9999999999999 noVerify optsValidateTs 0 1500 0
      rfl).2.2 rfl rfl (by decide)⟩
